import Mathlib

/-!
Verification of the elixpoaccounts identity provider against its
natural-language specification.  The definitions below are shallow
embeddings of the TypeScript source: pure data and state-passing
functions mirroring `src/lib/jwt.ts` (token issuance/verification),
`src/lib/db.ts` (credential records), `app/api/auth/refresh/route.ts`
(refresh-token rotation), `src/lib/rate-limit.ts` and the API-key
limiter, the RBAC permission resolver in `src/lib/permissions.ts` with
the `withRbac` middleware, and the OAuth callback / login routes.
External effects (clock, randomness, provider HTTP calls, store
failures) are passed as explicit parameters.
-/

/-! ## Token model (src/lib/jwt.ts) -/

inductive AuthProvider
  | google
  | github
  | email
deriving DecidableEq, Repr

inductive TokenType
  | access
  | refresh
deriving DecidableEq, Repr

structure JWTPayload where
  sub : String
  email : String
  provider : Option AuthProvider
  iat : Nat
  exp : Nat
  type : TokenType
deriving DecidableEq, Repr

/-- Injective byte encoding of a string (length-prefixed code points),
used by the model MAC below. -/
def encodeString (s : String) : List Nat :=
  s.length :: s.toList.map Char.toNat

def providerCode : Option AuthProvider → Nat
  | none => 0
  | some AuthProvider.google => 1
  | some AuthProvider.github => 2
  | some AuthProvider.email => 3

def typeCode : TokenType → Nat
  | TokenType.access => 0
  | TokenType.refresh => 1

def encodePayload (p : JWTPayload) : List Nat :=
  encodeString p.sub ++ encodeString p.email ++
    [providerCode p.provider, p.iat, p.exp, typeCode p.type]

/-- Model of the signing primitive used by `jose.SignJWT(...).sign(key)`:
a deterministic keyed MAC over the encoded payload.  Verification only
compares the presented signature with the recomputed MAC, which is the
property the theorems below rely on. -/
def macSign (key : Nat) (p : JWTPayload) : List Nat :=
  key % 256 :: (encodePayload p).map fun b => (b + key) % 4294967296

structure JWT where
  payload : JWTPayload
  sig : List Nat
deriving DecidableEq, Repr

/-- Embedding of `createAccessToken` (src/lib/jwt.ts lines 567-590):
payload `{sub, email, type: 'access', provider?}` with issued-at `now`
and expiry `now + expiresInMinutes * 60`, signed with the active key. -/
def createAccessToken (key now : Nat) (userId emailAddr : String)
    (provider : Option AuthProvider) (expiresInMinutes : Nat) : JWT :=
  let p : JWTPayload :=
    { sub := userId, email := emailAddr, provider := provider,
      iat := now, exp := now + expiresInMinutes * 60, type := TokenType.access }
  { payload := p, sig := macSign key p }

/-- Embedding of `createRefreshToken` (src/lib/jwt.ts lines 595-617):
the payload sets `email: ''` (source comment: refresh tokens do not
need email) and `type: 'refresh'`, expiring after `expiresInDays`. -/
def createRefreshToken (key now : Nat) (userId : String)
    (provider : Option AuthProvider) (expiresInDays : Nat) : JWT :=
  let p : JWTPayload :=
    { sub := userId, email := "", provider := provider,
      iat := now, exp := now + expiresInDays * 24 * 60 * 60, type := TokenType.refresh }
  { payload := p, sig := macSign key p }

/-- Embedding of `verifyJWT` (src/lib/jwt.ts lines 622-636): checks the
signature and the expiry claim, returning the payload on success and
`none` on any failure (the source catches all errors and returns null). -/
def verifyJWT (key now : Nat) (t : JWT) : Option JWTPayload :=
  if t.sig = macSign key t.payload ∧ now < t.payload.exp then some t.payload else none

/-- Dispatcher over the two issue operations, indexed by the token kind,
matching how callers pick `createAccessToken` vs `createRefreshToken`. -/
def issueToken (key now : Nat) (kind : TokenType) (sub emailAddr : String)
    (provider : Option AuthProvider) : JWT :=
  match kind with
  | TokenType.access => createAccessToken key now sub emailAddr provider 15
  | TokenType.refresh => createRefreshToken key now sub provider 30

/-- Flip one byte of a signature (xor with 0xFF at position `i`). -/
def flipAt (i : Nat) (l : List Nat) : List Nat :=
  l.set i ((l.getD i 0) ^^^ 255)

def tamperSig (i : Nat) (t : JWT) : JWT :=
  { t with sig := flipAt i t.sig }

theorem xor255_ne (b : Nat) : b ^^^ 255 ≠ b := by
  intro h
  have h2 : b ^^^ (b ^^^ 255) = b ^^^ b := congrArg (fun z => b ^^^ z) h
  rw [← Nat.xor_assoc, Nat.xor_self, Nat.zero_xor] at h2
  simp at h2

theorem flipAt_ne (l : List Nat) (i : Nat) (h : i < l.length) : flipAt i l ≠ l := by
  induction l generalizing i with
  | nil => simp at h
  | cons x xs ih =>
    cases i with
    | zero =>
      simp only [flipAt, List.set, List.getD, List.get?, List.getElem?_cons_zero, Option.getD_some]
      intro hEq
      exact xor255_ne x (List.head_eq_of_cons_eq hEq)
    | succ j =>
      simp only [flipAt, List.set]
      intro hEq
      have hj : j < xs.length := by simpa using h
      have htail : flipAt j xs = xs := by
        have := List.tail_eq_of_cons_eq hEq
        simpa [flipAt] using this
      exact ih j hj htail

/-- C3: the claim quantifies over every email and token kind, but the
issue operation for refresh tokens discards the email argument and
stores the empty string (`email: ''` in `createRefreshToken`), so
verification of a refresh token does not return the original email. -/
theorem C3_counterexample :
    (verifyJWT 7 100 (issueToken 7 100 TokenType.refresh "u1" "a@x.com" none)).map JWTPayload.email
      = some "" ∧ ("" : String) ≠ "a@x.com" := by
  constructor
  · decide
  · decide

/-- C3 (amended): for every key, time, subject, email, provider and
kind, verifying the freshly issued token succeeds and returns the
original subject and type; the email claim round-trips for access
tokens, while refresh tokens carry the empty email claim by
construction.  Flipping any byte of the signature makes verification
return `none` (it never throws: `verifyJWT` is a total function into
`Option`). -/
theorem C3_token_roundtrip_amended (key now : Nat) (kind : TokenType)
    (sub emailAddr : String) (provider : Option AuthProvider) (i : Nat) :
    verifyJWT key now (issueToken key now kind sub emailAddr provider)
        = some (issueToken key now kind sub emailAddr provider).payload
    ∧ (issueToken key now kind sub emailAddr provider).payload.sub = sub
    ∧ (issueToken key now kind sub emailAddr provider).payload.type = kind
    ∧ (kind = TokenType.access →
        (issueToken key now kind sub emailAddr provider).payload.email = emailAddr)
    ∧ (kind = TokenType.refresh →
        (issueToken key now kind sub emailAddr provider).payload.email = "")
    ∧ (i < (issueToken key now kind sub emailAddr provider).sig.length →
        verifyJWT key now (tamperSig i (issueToken key now kind sub emailAddr provider)) = none) := by
  cases kind with
  | access =>
    refine ⟨?_, rfl, rfl, ?_, ?_, ?_⟩
    · simp [verifyJWT, issueToken, createAccessToken]
    · intro _
      rfl
    · intro h
      exact nomatch h
    · intro hi
      simp only [verifyJWT, issueToken, createAccessToken, tamperSig] at *
      rw [if_neg]
      intro hAnd
      exact flipAt_ne _ i hi (hAnd.1)
  | refresh =>
    refine ⟨?_, rfl, rfl, ?_, ?_, ?_⟩
    · simp [verifyJWT, issueToken, createRefreshToken]
    · intro h
      exact nomatch h
    · intro _
      rfl
    · intro hi
      simp only [verifyJWT, issueToken, createRefreshToken, tamperSig] at *
      rw [if_neg]
      intro hAnd
      exact flipAt_ne _ i hi (hAnd.1)

theorem C3_token_roundtrip_amended_witness :
    verifyJWT 7 100 (issueToken 7 100 TokenType.access "u1" "a@x.com" none)
        = some (issueToken 7 100 TokenType.access "u1" "a@x.com" none).payload
    ∧ (issueToken 7 100 TokenType.access "u1" "a@x.com" none).payload.sub = "u1"
    ∧ (issueToken 7 100 TokenType.access "u1" "a@x.com" none).payload.type = TokenType.access
    ∧ (TokenType.access = TokenType.access →
        (issueToken 7 100 TokenType.access "u1" "a@x.com" none).payload.email = "a@x.com")
    ∧ (TokenType.access = TokenType.refresh →
        (issueToken 7 100 TokenType.access "u1" "a@x.com" none).payload.email = "")
    ∧ (0 < (issueToken 7 100 TokenType.access "u1" "a@x.com" none).sig.length →
        verifyJWT 7 100 (tamperSig 0 (issueToken 7 100 TokenType.access "u1" "a@x.com" none)) = none) :=
  C3_token_roundtrip_amended 7 100 TokenType.access "u1" "a@x.com" none 0

/-! ## Credential Records and refresh-token rotation
(src/lib/db.ts, app/api/auth/refresh/route.ts) -/

/-- Modelled from the spec: `hashString` lives in the missing
`@/lib/crypto` module.  Per §3 of the spec a Credential Record stores
the one-way hash of the issued refresh token; collision-freeness of the
hash is modelled by an injective tagging of the token value. -/
structure TokenHash where
  val : JWT
deriving DecidableEq, Repr

def hashString (t : JWT) : TokenHash :=
  { val := t }

/-- One row of the `refresh_tokens` table (schema in the D1 setup). -/
structure RefreshTokenRow where
  id : String
  userId : String
  tokenHash : TokenHash
  clientId : Option String
  expiresAt : Nat
  revoked : Bool
deriving DecidableEq, Repr

/-- Embedding of `getRefreshTokenByHash` (src/lib/db.ts): selects the
row with the given hash whose expiry is in the future and which is not
revoked (`WHERE token_hash = ? AND expires_at > CURRENT_TIMESTAMP AND
revoked = 0`). -/
def getRefreshTokenByHash (rows : List RefreshTokenRow) (now : Nat)
    (h : TokenHash) : Option RefreshTokenRow :=
  rows.find? fun r => r.tokenHash == h && decide (now < r.expiresAt) && !r.revoked

/-- Embedding of `revokeRefreshToken` (src/lib/db.ts): `UPDATE
refresh_tokens SET revoked = 1 WHERE token_hash = ?`. -/
def revokeRefreshToken (rows : List RefreshTokenRow) (h : TokenHash) :
    List RefreshTokenRow :=
  rows.map fun r => if r.tokenHash == h then { r with revoked := true } else r

/-- Embedding of `createRefreshToken` on the store side (src/lib/db.ts):
a plain `INSERT` of a new row. -/
def insertRefreshTokenRow (rows : List RefreshTokenRow) (row : RefreshTokenRow) :
    List RefreshTokenRow :=
  rows ++ [row]

/-- A primitive write against the refresh-token table. -/
inductive StoreOp
  | revokeOld (h : TokenHash)
  | insertNew (row : RefreshTokenRow)
deriving DecidableEq, Repr

def applyStoreOp (rows : List RefreshTokenRow) : StoreOp → List RefreshTokenRow
  | StoreOp.revokeOld h => revokeRefreshToken rows h
  | StoreOp.insertNew row => insertRefreshTokenRow rows row

/-- The write sequence of the rotation block, in the order the source
performs it: `app/api/auth/refresh/route.ts` lines 65-71 first awaits
`revokeRefreshToken(db, oldTokenHash)` and then awaits
`storeRefreshToken(db, ...)`; the `/api/auth/token` refresh grant does
the same (revoke first, then store). -/
def rotationOps (oldHash : TokenHash) (newRow : RefreshTokenRow) : List StoreOp :=
  [StoreOp.revokeOld oldHash, StoreOp.insertNew newRow]

inductive RefreshOutcome
  | noToken
  | invalidToken
  | revokedOrExpired
  | issued (access refresh : JWT)
deriving DecidableEq, Repr

structure RefreshEnv where
  key : Nat
  now : Nat
  newRowId : String
  lookupRaises : Bool
  rotationRaises : Bool
deriving Repr

/-- Embedding of `POST /api/auth/refresh`
(app/api/auth/refresh/route.ts): verify the presented refresh JWT and
its `type`; check the store for an unrevoked, unexpired record (the
check is skipped, fail-open, when the store raises); issue a new access
token and a new refresh token; then rotate by applying `rotationOps`
(revoke old, insert new), skipping the writes when the store raises
there (the new tokens are still returned). -/
def refreshPOST (env : RefreshEnv) (rows : List RefreshTokenRow)
    (cookie : Option JWT) : RefreshOutcome × List RefreshTokenRow :=
  match cookie with
  | none => (RefreshOutcome.noToken, rows)
  | some rt =>
    match verifyJWT env.key env.now rt with
    | none => (RefreshOutcome.invalidToken, rows)
    | some payload =>
      if payload.type ≠ TokenType.refresh then (RefreshOutcome.invalidToken, rows)
      else
        let lookupRejected :=
          if env.lookupRaises then false
          else (getRefreshTokenByHash rows env.now (hashString rt)).isNone
        if lookupRejected then (RefreshOutcome.revokedOrExpired, rows)
        else
          let newAccess := createAccessToken env.key env.now payload.sub payload.email payload.provider 15
          let newRefresh := createRefreshToken env.key env.now payload.sub payload.provider 30
          let newRow : RefreshTokenRow :=
            { id := env.newRowId, userId := payload.sub,
              tokenHash := hashString newRefresh, clientId := none,
              expiresAt := env.now + 30 * 24 * 60 * 60 * 1000, revoked := false }
          let rows2 :=
            if env.rotationRaises then rows
            else (rotationOps (hashString rt) newRow).foldl applyStoreOp rows
          (RefreshOutcome.issued newAccess newRefresh, rows2)

theorem find?_revoked_none (rows : List RefreshTokenRow) (now : Nat) (h : TokenHash) :
    getRefreshTokenByHash (revokeRefreshToken rows h) now h = none := by
  rw [getRefreshTokenByHash, List.find?_eq_none]
  intro r hr
  rcases List.mem_map.mp hr with ⟨q, _, hq⟩
  by_cases hqh : q.tokenHash == h
  · rw [if_pos hqh] at hq
    subst hq
    simp
  · rw [if_neg hqh] at hq
    subst hq
    simp only [Bool.and_eq_true, bne_iff_ne, ne_eq]
    intro hAnd
    exact hqh hAnd.1.1

theorem find?_fresh_none (rows : List RefreshTokenRow) (now : Nat) (h : TokenHash)
    (hfresh : ∀ r ∈ rows, r.tokenHash ≠ h) :
    getRefreshTokenByHash rows now h = none := by
  rw [getRefreshTokenByHash, List.find?_eq_none]
  intro r hr
  simp only [Bool.and_eq_true, beq_iff_eq]
  intro hAnd
  exact hfresh r hr hAnd.1.1

def RefreshOutcome.isIssued : RefreshOutcome → Bool
  | RefreshOutcome.issued _ _ => true
  | _ => false

theorem verifyJWT_eq_some (key now : Nat) (t : JWT) (p : JWTPayload)
    (h : verifyJWT key now t = some p) :
    p = t.payload ∧ t.sig = macSign key t.payload ∧ now < t.payload.exp := by
  rw [verifyJWT] at h
  by_cases hc : t.sig = macSign key t.payload ∧ now < t.payload.exp
  · rw [if_pos hc] at h
    exact ⟨(Option.some.injEq _ _ ▸ h).symm, hc⟩
  · rw [if_neg hc] at h
    exact absurd h (Option.noConfusion)

theorem getRefreshTokenByHash_append_none (l1 l2 : List RefreshTokenRow)
    (now : Nat) (h : TokenHash)
    (h1 : getRefreshTokenByHash l1 now h = none)
    (h2 : getRefreshTokenByHash l2 now h = none) :
    getRefreshTokenByHash (l1 ++ l2) now h = none := by
  rw [getRefreshTokenByHash, List.find?_eq_none] at *
  intro r hr
  rcases List.mem_append.mp hr with hm | hm
  · exact h1 r hm
  · exact h2 r hm

theorem revoked_after_revoke (rows : List RefreshTokenRow) (h : TokenHash) :
    ∀ q ∈ revokeRefreshToken rows h, q.tokenHash = h → q.revoked = true := by
  intro q hq hqh
  rcases List.mem_map.mp hq with ⟨w, _, hw⟩
  by_cases hwh : w.tokenHash == h
  · rw [if_pos hwh] at hw
    subst hw
    rfl
  · rw [if_neg hwh] at hw
    subst hw
    exact absurd (beq_iff_eq.mpr hqh) hwh

theorem revoke_preserves_hash (rows : List RefreshTokenRow) (h h2 : TokenHash)
    (hfresh : ∀ r ∈ rows, r.tokenHash ≠ h2) :
    ∀ q ∈ revokeRefreshToken rows h, q.tokenHash ≠ h2 := by
  intro q hq
  rcases List.mem_map.mp hq with ⟨w, hwmem, hw⟩
  by_cases hwh : w.tokenHash == h
  · rw [if_pos hwh] at hw
    subst hw
    exact hfresh w hwmem
  · rw [if_neg hwh] at hw
    subst hw
    exact hfresh w hwmem

theorem refreshPOST_success_char (env : RefreshEnv) (rows : List RefreshTokenRow)
    (rt : JWT)
    (hl : env.lookupRaises = false) (hr : env.rotationRaises = false)
    (hsucc : (refreshPOST env rows (some rt)).1.isIssued = true) :
    ∃ p, verifyJWT env.key env.now rt = some p ∧ p.type = TokenType.refresh ∧
      (refreshPOST env rows (some rt)).2 =
        insertRefreshTokenRow (revokeRefreshToken rows (hashString rt))
          { id := env.newRowId, userId := p.sub,
            tokenHash := hashString (createRefreshToken env.key env.now p.sub p.provider 30),
            clientId := none, expiresAt := env.now + 30 * 24 * 60 * 60 * 1000,
            revoked := false } := by
  cases hv : verifyJWT env.key env.now rt with
  | none =>
    rw [refreshPOST] at hsucc
    rw [hv] at hsucc
    exact absurd hsucc (by simp [RefreshOutcome.isIssued])
  | some p =>
    by_cases hty : p.type = TokenType.refresh
    · cases hlook : (getRefreshTokenByHash rows env.now (hashString rt)).isNone with
      | true =>
        rw [refreshPOST] at hsucc
        rw [hv] at hsucc
        simp only [hty, ne_eq, not_true_eq_false, if_false, hl, Bool.false_eq_true,
          if_true, hlook] at hsucc
        exact absurd hsucc (by simp [RefreshOutcome.isIssued])
      | false =>
        refine ⟨p, rfl, hty, ?_⟩
        rw [refreshPOST]
        rw [hv]
        simp only [hty, ne_eq, not_true_eq_false, if_false, hl, Bool.false_eq_true,
          if_true, hlook, hr, rotationOps, List.foldl, applyStoreOp]
    · rw [refreshPOST] at hsucc
      rw [hv] at hsucc
      simp only [hty, ne_eq, not_false_eq_true, if_true] at hsucc
      exact absurd hsucc (by simp [RefreshOutcome.isIssued])

/-- C1: refresh-token rotation is single-use.  If a `POST
/api/auth/refresh` call with token `rt` succeeds while the store is
reachable (both the lookup and the rotation writes go through), then a
second refresh call presenting the same `rt` against the rotated store
is rejected with the 401 revoked/expired outcome, because every
credential record carrying the hash of `rt` has been marked revoked.
The freshness hypothesis (`rt` was not issued at the very instant of
the first refresh) mirrors the distinct issued-at claim of the rotated
token. -/
theorem C1_refresh_rotation_single_use
    (env1 env2 : RefreshEnv) (rows : List RefreshTokenRow) (rt : JWT)
    (hl1 : env1.lookupRaises = false) (hr1 : env1.rotationRaises = false)
    (hl2 : env2.lookupRaises = false)
    (hkey : env2.key = env1.key)
    (hexp : env2.now < rt.payload.exp)
    (hiat : rt.payload.iat ≠ env1.now)
    (hsucc : (refreshPOST env1 rows (some rt)).1.isIssued = true) :
    (refreshPOST env2 (refreshPOST env1 rows (some rt)).2 (some rt)).1
        = RefreshOutcome.revokedOrExpired
    ∧ ∀ q ∈ (refreshPOST env1 rows (some rt)).2,
        q.tokenHash = hashString rt → q.revoked = true := by
  obtain ⟨p, hv, hty, hrows⟩ := refreshPOST_success_char env1 rows rt hl1 hr1 hsucc
  obtain ⟨hpp, hsig, _⟩ := verifyJWT_eq_some env1.key env1.now rt p hv
  have hv2 : verifyJWT env2.key env2.now rt = some rt.payload := by
    rw [verifyJWT, if_pos]
    exact ⟨by rw [hkey]; exact hsig, hexp⟩
  have hne : hashString (createRefreshToken env1.key env1.now p.sub p.provider 30)
      ≠ hashString rt := by
    intro hEq
    have hTok : createRefreshToken env1.key env1.now p.sub p.provider 30 = rt :=
      congrArg TokenHash.val hEq
    have hi : env1.now = rt.payload.iat := by
      have := congrArg (fun t => t.payload.iat) hTok
      simpa [createRefreshToken] using this
    exact hiat hi.symm
  have hnone : getRefreshTokenByHash (refreshPOST env1 rows (some rt)).2 env2.now
      (hashString rt) = none := by
    rw [hrows, insertRefreshTokenRow]
    apply getRefreshTokenByHash_append_none
    · exact find?_revoked_none rows env2.now (hashString rt)
    · apply find?_fresh_none
      intro r hr
      rw [List.mem_singleton] at hr
      subst hr
      exact hne
  constructor
  · rw [refreshPOST]
    rw [hv2]
    have htyrt : rt.payload.type = TokenType.refresh := hpp ▸ hty
    simp only [htyrt, ne_eq, not_true_eq_false, if_false, hl2, Bool.false_eq_true,
      if_true, hnone, Option.isNone_none]
  · intro q hq hqh
    rw [hrows, insertRefreshTokenRow] at hq
    rcases List.mem_append.mp hq with hm | hm
    · exact revoked_after_revoke rows (hashString rt) q hm hqh
    · rw [List.mem_singleton] at hm
      subst hm
      exact absurd hqh hne

theorem C1_refresh_rotation_single_use_witness :
    (refreshPOST { key := 7, now := 300, newRowId := "n2", lookupRaises := false, rotationRaises := false }
      (refreshPOST { key := 7, now := 200, newRowId := "n1", lookupRaises := false, rotationRaises := false }
        [{ id := "r1", userId := "u1",
           tokenHash := hashString (createRefreshToken 7 100 "u1" none 30),
           clientId := none, expiresAt := 5000000, revoked := false }]
        (some (createRefreshToken 7 100 "u1" none 30))).2
      (some (createRefreshToken 7 100 "u1" none 30))).1
        = RefreshOutcome.revokedOrExpired
    ∧ ∀ q ∈ (refreshPOST { key := 7, now := 200, newRowId := "n1", lookupRaises := false, rotationRaises := false }
        [{ id := "r1", userId := "u1",
           tokenHash := hashString (createRefreshToken 7 100 "u1" none 30),
           clientId := none, expiresAt := 5000000, revoked := false }]
        (some (createRefreshToken 7 100 "u1" none 30))).2,
        q.tokenHash = hashString (createRefreshToken 7 100 "u1" none 30) → q.revoked = true :=
  C1_refresh_rotation_single_use
    { key := 7, now := 200, newRowId := "n1", lookupRaises := false, rotationRaises := false }
    { key := 7, now := 300, newRowId := "n2", lookupRaises := false, rotationRaises := false }
    [{ id := "r1", userId := "u1",
       tokenHash := hashString (createRefreshToken 7 100 "u1" none 30),
       clientId := none, expiresAt := 5000000, revoked := false }]
    (createRefreshToken 7 100 "u1" none 30)
    rfl rfl rfl rfl (by decide) (by decide) (by decide)

/-- C2: the claim says rotation persists the new record before revoking
the old one.  In the source the rotation block awaits
`revokeRefreshToken` first and `storeRefreshToken` second
(app/api/auth/refresh/route.ts lines 65-71), so after only the first
write has been persisted (a crash between the two steps) the old
credential is already revoked while the new one is absent: neither
lookup succeeds, refuting both the claimed ordering and the claimed
crash behaviour. -/
theorem C2_counterexample :
    rotationOps (hashString (createRefreshToken 7 100 "u1" none 30))
        { id := "n1", userId := "u1",
          tokenHash := hashString (createRefreshToken 7 200 "u1" none 30),
          clientId := none, expiresAt := 5000000, revoked := false }
      = [StoreOp.revokeOld (hashString (createRefreshToken 7 100 "u1" none 30)),
         StoreOp.insertNew
           { id := "n1", userId := "u1",
             tokenHash := hashString (createRefreshToken 7 200 "u1" none 30),
             clientId := none, expiresAt := 5000000, revoked := false }]
    ∧ getRefreshTokenByHash
        (applyStoreOp
          [{ id := "r1", userId := "u1",
             tokenHash := hashString (createRefreshToken 7 100 "u1" none 30),
             clientId := none, expiresAt := 5000000, revoked := false }]
          (StoreOp.revokeOld (hashString (createRefreshToken 7 100 "u1" none 30))))
        300 (hashString (createRefreshToken 7 100 "u1" none 30)) = none
    ∧ getRefreshTokenByHash
        (applyStoreOp
          [{ id := "r1", userId := "u1",
             tokenHash := hashString (createRefreshToken 7 100 "u1" none 30),
             clientId := none, expiresAt := 5000000, revoked := false }]
          (StoreOp.revokeOld (hashString (createRefreshToken 7 100 "u1" none 30))))
        300 (hashString (createRefreshToken 7 200 "u1" none 30)) = none := by
  refine ⟨rfl, ?_, ?_⟩
  · decide
  · decide

/-- C2 (amended): rotation revokes the old Credential Record before
persisting the new one (the first write of `rotationOps` is the
revocation), so a crash between the two steps leaves neither the old
nor the new refresh credential valid: the old hash no longer resolves
to an unrevoked record and the new hash is not stored yet. -/
theorem C2_rotation_order_amended (oldHash : TokenHash) (newRow : RefreshTokenRow)
    (rows : List RefreshTokenRow) (now : Nat)
    (hfresh : ∀ r ∈ rows, r.tokenHash ≠ newRow.tokenHash) :
    rotationOps oldHash newRow
        = [StoreOp.revokeOld oldHash, StoreOp.insertNew newRow]
    ∧ getRefreshTokenByHash (applyStoreOp rows (StoreOp.revokeOld oldHash))
        now oldHash = none
    ∧ getRefreshTokenByHash (applyStoreOp rows (StoreOp.revokeOld oldHash))
        now newRow.tokenHash = none := by
  refine ⟨rfl, ?_, ?_⟩
  · exact find?_revoked_none rows now oldHash
  · exact find?_fresh_none _ now newRow.tokenHash
      (revoke_preserves_hash rows oldHash newRow.tokenHash hfresh)

theorem C2_rotation_order_amended_witness :
    rotationOps (hashString (createRefreshToken 7 100 "u2" none 30))
        { id := "n9", userId := "u2",
          tokenHash := hashString (createRefreshToken 7 250 "u2" none 30),
          clientId := none, expiresAt := 6000000, revoked := false }
        = [StoreOp.revokeOld (hashString (createRefreshToken 7 100 "u2" none 30)),
           StoreOp.insertNew
             { id := "n9", userId := "u2",
               tokenHash := hashString (createRefreshToken 7 250 "u2" none 30),
               clientId := none, expiresAt := 6000000, revoked := false }]
    ∧ getRefreshTokenByHash
        (applyStoreOp
          [{ id := "r9", userId := "u2",
             tokenHash := hashString (createRefreshToken 7 100 "u2" none 30),
             clientId := none, expiresAt := 6000000, revoked := false }]
          (StoreOp.revokeOld (hashString (createRefreshToken 7 100 "u2" none 30))))
        400 (hashString (createRefreshToken 7 100 "u2" none 30)) = none
    ∧ getRefreshTokenByHash
        (applyStoreOp
          [{ id := "r9", userId := "u2",
             tokenHash := hashString (createRefreshToken 7 100 "u2" none 30),
             clientId := none, expiresAt := 6000000, revoked := false }]
          (StoreOp.revokeOld (hashString (createRefreshToken 7 100 "u2" none 30))))
        400 (hashString (createRefreshToken 7 250 "u2" none 30)) = none :=
  C2_rotation_order_amended
    (hashString (createRefreshToken 7 100 "u2" none 30))
    { id := "n9", userId := "u2",
      tokenHash := hashString (createRefreshToken 7 250 "u2" none 30),
      clientId := none, expiresAt := 6000000, revoked := false }
    [{ id := "r9", userId := "u2",
       tokenHash := hashString (createRefreshToken 7 100 "u2" none 30),
       clientId := none, expiresAt := 6000000, revoked := false }]
    400 (by decide)

/-- C10: when the Credential Store lookup raises during a refresh call,
the error is caught and the refresh proceeds on JWT verification alone:
for any token with a valid signature and `type = refresh` — including
one whose stored record is already revoked — new access and refresh
tokens are still issued. -/
theorem C10_refresh_fails_open_on_store_error
    (env : RefreshEnv) (rows : List RefreshTokenRow) (rt : JWT) (p : JWTPayload)
    (hl : env.lookupRaises = true)
    (hv : verifyJWT env.key env.now rt = some p)
    (hty : p.type = TokenType.refresh)
    (hrevoked : ∀ q ∈ rows, q.tokenHash = hashString rt → q.revoked = true) :
    (refreshPOST env rows (some rt)).1 =
      RefreshOutcome.issued
        (createAccessToken env.key env.now p.sub p.email p.provider 15)
        (createRefreshToken env.key env.now p.sub p.provider 30) := by
  rw [refreshPOST]
  rw [hv]
  simp only [hty, ne_eq, not_true_eq_false, if_false, hl, if_true, Bool.false_eq_true]

theorem C10_refresh_fails_open_on_store_error_witness :
    (refreshPOST { key := 7, now := 200, newRowId := "n1", lookupRaises := true, rotationRaises := true }
      [{ id := "r1", userId := "u1",
         tokenHash := hashString (createRefreshToken 7 100 "u1" none 30),
         clientId := none, expiresAt := 5000000, revoked := true }]
      (some (createRefreshToken 7 100 "u1" none 30))).1 =
      RefreshOutcome.issued
        (createAccessToken 7 200 "u1" "" none 15)
        (createRefreshToken 7 200 "u1" none 30) :=
  C10_refresh_fails_open_on_store_error
    { key := 7, now := 200, newRowId := "n1", lookupRaises := true, rotationRaises := true }
    [{ id := "r1", userId := "u1",
       tokenHash := hashString (createRefreshToken 7 100 "u1" none 30),
       clientId := none, expiresAt := 5000000, revoked := true }]
    (createRefreshToken 7 100 "u1" none 30)
    (createRefreshToken 7 100 "u1" none 30).payload
    rfl (by decide) rfl (by decide)

/-! ## Sliding-window rate limiter (src/lib/rate-limit.ts) -/

def ceilDiv (a b : Nat) : Nat :=
  (a + b - 1) / b

structure RLConfig where
  windowMs : Nat
  maxRequests : Nat
  blockDurationMs : Nat
deriving DecidableEq, Repr

/-- One `rate_limits` row for a fixed (ip, endpoint) key; the schema
keeps at most one row per key (upsert on conflict). -/
structure RLEntry where
  attemptCount : Nat
  windowResetAt : Nat
  isBlocked : Bool
  blockedUntil : Option Nat
deriving DecidableEq, Repr

/-- Shape of the source `RateLimitResult`.  `remaining` is an integer
because the source computes plain JS arithmetic (`maxRequests - 1`)
without clamping in the reset branch. -/
structure RLResult where
  allowed : Bool
  remaining : Int
  resetAt : Nat
  retryAfter : Option Nat
deriving DecidableEq, Repr

structure RLCheck where
  result : RLResult
  entry : Option RLEntry
  errorLogged : Bool
deriving DecidableEq, Repr

/-- The effective block length: `this.blockDurationMs || this.windowMs`
(JS falsy zero falls back to the window). -/
def blockLen (cfg : RLConfig) : Nat :=
  if cfg.blockDurationMs = 0 then cfg.windowMs else cfg.blockDurationMs

/-- Embedding of `DatabaseRateLimiter.check`
(src/lib/rate-limit.ts lines 32-157) for one (ip, endpoint) key.
`dbRaises` models the backing store throwing during the check: the
source catch branch allows the request with a full remaining budget and
logs the error.  Otherwise: an actively blocked entry rejects with the
seconds left; a missing or window-expired entry is reset to count 1 and
allowed; a count at or above the limit blocks the key for `blockLen`
and rejects; and otherwise the count is incremented and the request is
allowed. -/
def rlCheck (cfg : RLConfig) (now : Nat) (st : Option RLEntry) (dbRaises : Bool) :
    RLCheck :=
  let windowResetAt := now + cfg.windowMs
  if dbRaises then
    { result := { allowed := true, remaining := (cfg.maxRequests : Int),
                  resetAt := windowResetAt, retryAfter := none },
      entry := st, errorLogged := true }
  else
    let resetCheck : RLCheck :=
      { result := { allowed := true, remaining := (cfg.maxRequests : Int) - 1,
                    resetAt := windowResetAt, retryAfter := none },
        entry := some { attemptCount := 1, windowResetAt := windowResetAt,
                        isBlocked := false, blockedUntil := none },
        errorLogged := false }
    match st with
    | none => resetCheck
    | some e =>
      if e.isBlocked && decide (now < e.blockedUntil.getD 0) then
        let resetTime := e.blockedUntil.getD 0
        { result := { allowed := false, remaining := 0, resetAt := resetTime,
                      retryAfter := some (ceilDiv (resetTime - now) 1000) },
          entry := st, errorLogged := false }
      else if e.windowResetAt < now then resetCheck
      else if cfg.maxRequests ≤ e.attemptCount then
        let blockedUntil := now + blockLen cfg
        { result := { allowed := false, remaining := 0, resetAt := blockedUntil,
                      retryAfter := some (ceilDiv (blockLen cfg) 1000) },
          entry := some { attemptCount := e.attemptCount + 1,
                          windowResetAt := e.windowResetAt,
                          isBlocked := true, blockedUntil := some blockedUntil },
          errorLogged := false }
      else
        { result := { allowed := true,
                      remaining := max 0 ((cfg.maxRequests : Int) - e.attemptCount - 1),
                      resetAt := e.windowResetAt, retryAfter := none },
          entry := some { e with attemptCount := e.attemptCount + 1 },
          errorLogged := false }

/-- Configuration of `createLoginRateLimiter`: 1-minute window, 10
requests, 15-minute block. -/
def loginRateLimiter : RLConfig :=
  { windowMs := 60 * 1000, maxRequests := 10, blockDurationMs := 15 * 60 * 1000 }

def registerRateLimiter : RLConfig :=
  { windowMs := 60 * 1000, maxRequests := 5, blockDurationMs := 30 * 60 * 1000 }

def passwordResetRateLimiter : RLConfig :=
  { windowMs := 60 * 60 * 1000, maxRequests := 3, blockDurationMs := 60 * 60 * 1000 }

/-- The entry stored after `k` allowed requests in a window opened at
`t0`. -/
def winEntry (cfg : RLConfig) (t0 k : Nat) : RLEntry :=
  { attemptCount := k, windowResetAt := t0 + cfg.windowMs,
    isBlocked := false, blockedUntil := none }

/-- C4: rate limiter window behaviour.  On a fresh key the entry is
reset to count 1 and the request is allowed with `remaining =
maxRequests - 1`; while the stored count `k` is below the limit each
in-window request is allowed and `remaining` drops by exactly one
(`maxRequests - k - 1`); the request finding the stored count at
`maxRequests` is rejected, marks the entry blocked with `blocked_until
= now + blockDuration`, and returns `retryAfter = blockDuration / 1000`
rounded up — 900 seconds for the login configuration (10 per minute,
15-minute block). -/
theorem C4_rate_limiter_window (cfg : RLConfig) (t0 t k : Nat)
    (ht : t ≤ t0 + cfg.windowMs) :
    rlCheck cfg t0 none false =
      { result := { allowed := true, remaining := (cfg.maxRequests : Int) - 1,
                    resetAt := t0 + cfg.windowMs, retryAfter := none },
        entry := some (winEntry cfg t0 1), errorLogged := false }
    ∧ (k < cfg.maxRequests →
        rlCheck cfg t (some (winEntry cfg t0 k)) false =
          { result := { allowed := true,
                        remaining := (cfg.maxRequests : Int) - k - 1,
                        resetAt := t0 + cfg.windowMs, retryAfter := none },
            entry := some (winEntry cfg t0 (k + 1)), errorLogged := false })
    ∧ rlCheck cfg t (some (winEntry cfg t0 cfg.maxRequests)) false =
        { result := { allowed := false, remaining := 0,
                      resetAt := t + blockLen cfg,
                      retryAfter := some (ceilDiv (blockLen cfg) 1000) },
          entry := some { attemptCount := cfg.maxRequests + 1,
                          windowResetAt := t0 + cfg.windowMs,
                          isBlocked := true,
                          blockedUntil := some (t + blockLen cfg) },
          errorLogged := false }
    ∧ (t ≤ t0 + loginRateLimiter.windowMs →
        (rlCheck loginRateLimiter t
          (some (winEntry loginRateLimiter t0 loginRateLimiter.maxRequests))
          false).result.retryAfter = some 900) := by
  have h1 : ¬ (t0 + cfg.windowMs < t) := Nat.not_lt.mpr ht
  refine ⟨rfl, ?_, ?_, ?_⟩
  · intro hk
    have h2 : ¬ (cfg.maxRequests ≤ k) := Nat.not_le.mpr hk
    have hmax : max 0 ((cfg.maxRequests : Int) - k - 1)
        = (cfg.maxRequests : Int) - k - 1 := by
      apply max_eq_right
      omega
    simp [rlCheck, winEntry, h1, h2, hmax]
  · simp [rlCheck, winEntry, h1]
  · intro hlt
    have h3 : ¬ (t0 + 60000 < t) := by
      simpa [loginRateLimiter] using Nat.not_lt.mpr hlt
    simp [rlCheck, winEntry, h3, loginRateLimiter, blockLen, ceilDiv]

theorem C4_rate_limiter_window_witness :
    (rlCheck loginRateLimiter 0 none false =
      { result := { allowed := true, remaining := (loginRateLimiter.maxRequests : Int) - 1,
                    resetAt := 0 + loginRateLimiter.windowMs, retryAfter := none },
        entry := some (winEntry loginRateLimiter 0 1), errorLogged := false })
    ∧ (3 < loginRateLimiter.maxRequests →
        rlCheck loginRateLimiter 30000 (some (winEntry loginRateLimiter 0 3)) false =
          { result := { allowed := true,
                        remaining := (loginRateLimiter.maxRequests : Int) - 3 - 1,
                        resetAt := 0 + loginRateLimiter.windowMs, retryAfter := none },
            entry := some (winEntry loginRateLimiter 0 (3 + 1)), errorLogged := false })
    ∧ rlCheck loginRateLimiter 30000
        (some (winEntry loginRateLimiter 0 loginRateLimiter.maxRequests)) false =
        { result := { allowed := false, remaining := 0,
                      resetAt := 30000 + blockLen loginRateLimiter,
                      retryAfter := some (ceilDiv (blockLen loginRateLimiter) 1000) },
          entry := some { attemptCount := loginRateLimiter.maxRequests + 1,
                          windowResetAt := 0 + loginRateLimiter.windowMs,
                          isBlocked := true,
                          blockedUntil := some (30000 + blockLen loginRateLimiter) },
          errorLogged := false }
    ∧ (30000 ≤ 0 + loginRateLimiter.windowMs →
        (rlCheck loginRateLimiter 30000
          (some (winEntry loginRateLimiter 0 loginRateLimiter.maxRequests))
          false).result.retryAfter = some 900) :=
  C4_rate_limiter_window loginRateLimiter 0 30000 3 (by decide)

/-! ## API-key rate limiter (src/lib/api-rate-limiter.ts, re-exported
through src/lib/api-auth-middleware.ts) -/

structure ApiKeyRLStatus where
  allowed : Bool
  requestsUsed : Nat
  requestsLimit : Nat
  remainingRequests : Int
  resetAt : Nat
  retryAfter : Option Nat
deriving DecidableEq, Repr

structure ApiKeyRLCheck where
  status : ApiKeyRLStatus
  errorLogged : Bool
deriving DecidableEq, Repr

/-- Embedding of `checkApiKeyRateLimit` (the API-key rate limiter
module, lines 59-103): counts the `api_key_usage` rows (`usage` holds
their created-at timestamps) newer than `now - windowSec * 1000`,
allows while the count is under the limit, reports `remaining = max 0
(limit - used)` and, when over budget, a retry-after up to the end of
the trailing window; a store error is caught, logged, and degrades to
allowing with a full budget. -/
def checkApiKeyRateLimit (usage : List Nat) (now limit windowSec : Nat)
    (queryRaises : Bool) : ApiKeyRLCheck :=
  let windowStart := now - windowSec * 1000
  if queryRaises then
    { status := { allowed := true, requestsUsed := 0, requestsLimit := limit,
                  remainingRequests := (limit : Int),
                  resetAt := now + windowSec * 1000, retryAfter := none },
      errorLogged := true }
  else
    let used := (usage.filter fun ts => decide (windowStart < ts)).length
    let resetAt := windowStart + windowSec * 1000
    { status := { allowed := decide (used < limit), requestsUsed := used,
                  requestsLimit := limit,
                  remainingRequests := max 0 ((limit : Int) - used),
                  resetAt := resetAt,
                  retryAfter := if limit ≤ used
                    then some (ceilDiv (resetAt - now) 1000) else none },
      errorLogged := false }

/-- C7: when the backing store raises during a rate-limit check, the
request is allowed with a full remaining budget instead of rejected,
and the degraded-mode event is logged: this holds for the IP limiter
(`DatabaseRateLimiter.check`, whose catch branch also leaves the stored
entry untouched) and for the API-key limiter check. -/
theorem C7_rate_limit_fail_open (cfg : RLConfig) (now : Nat) (st : Option RLEntry)
    (usage : List Nat) (nowMs limit windowSec : Nat) :
    rlCheck cfg now st true =
      { result := { allowed := true, remaining := (cfg.maxRequests : Int),
                    resetAt := now + cfg.windowMs, retryAfter := none },
        entry := st, errorLogged := true }
    ∧ checkApiKeyRateLimit usage nowMs limit windowSec true =
      { status := { allowed := true, requestsUsed := 0, requestsLimit := limit,
                    remainingRequests := (limit : Int),
                    resetAt := nowMs + windowSec * 1000, retryAfter := none },
        errorLogged := true } :=
  ⟨rfl, rfl⟩

/-- C9: the per-key API enforcement does not produce the same results
as the §4.3 algorithm for the same (maxRequests = 1, windowSeconds =
60) budget.  On a fresh key the §4.3 limiter reports `remaining = 0`
while the API-key check reports `remaining = 1`; on the over-budget
request the §4.3 limiter blocks the key and reports `retryAfter = 60`
(its block fallback) while the API-key check never blocks and reports
`retryAfter = 0` (the trailing window has already ended). -/
theorem C9_counterexample :
    (rlCheck { windowMs := 60000, maxRequests := 1, blockDurationMs := 0 }
        1000000 none false).result.remaining = 0
    ∧ (checkApiKeyRateLimit [] 1000000 1 60 false).status.remainingRequests = 1
    ∧ (0 : Int) ≠ 1
    ∧ (rlCheck { windowMs := 60000, maxRequests := 1, blockDurationMs := 0 }
        1000500
        (some (winEntry { windowMs := 60000, maxRequests := 1, blockDurationMs := 0 }
          1000000 1)) false).result.retryAfter = some 60
    ∧ (rlCheck { windowMs := 60000, maxRequests := 1, blockDurationMs := 0 }
        1000500
        (some (winEntry { windowMs := 60000, maxRequests := 1, blockDurationMs := 0 }
          1000000 1)) false).entry.map RLEntry.isBlocked = some true
    ∧ (checkApiKeyRateLimit [1000000] 1000500 1 60 false).status.retryAfter = some 0
    ∧ (checkApiKeyRateLimit [1000000] 1000500 1 60 false).status.allowed = false
    ∧ some (60 : Nat) ≠ some (0 : Nat) := by
  refine ⟨?_, ?_, ?_, ?_, ?_, ?_, ?_, ?_⟩ <;> decide

/-- C9 (amended): API-key rate limiting is keyed by key id with the
key's own (maxRequests, windowSeconds) budget, but it is a different
algorithm from §4.3: it counts usage-log entries in a trailing window
and keeps no blocked state.  On a fresh key it allows with `remaining =
limit` where the §4.3 limiter reports `limit - 1`; once the logged
usage reaches the limit it rejects with a retry-after to the end of
the trailing window (0 once the window lies in the past), while the
§4.3 limiter marks the entry blocked and reports the block length. -/
theorem C9_apikey_limiter_divergence_amended
    (limit w now t0 t : Nat) (usage : List Nat)
    (hlim : 0 < limit)
    (hw : w * 1000 ≤ now)
    (ht : t ≤ t0 + w * 1000)
    (hused : limit ≤ ((usage.filter fun ts => decide (now - w * 1000 < ts)).length)) :
    (checkApiKeyRateLimit [] now limit w false).status.allowed = true
    ∧ (checkApiKeyRateLimit [] now limit w false).status.remainingRequests = (limit : Int)
    ∧ (rlCheck { windowMs := w * 1000, maxRequests := limit, blockDurationMs := 0 }
        now none false).result.allowed = true
    ∧ (rlCheck { windowMs := w * 1000, maxRequests := limit, blockDurationMs := 0 }
        now none false).result.remaining = (limit : Int) - 1
    ∧ (checkApiKeyRateLimit usage now limit w false).status.allowed = false
    ∧ (checkApiKeyRateLimit usage now limit w false).status.retryAfter = some 0
    ∧ (rlCheck { windowMs := w * 1000, maxRequests := limit, blockDurationMs := 0 }
        t (some (winEntry { windowMs := w * 1000, maxRequests := limit, blockDurationMs := 0 }
          t0 limit)) false).result.retryAfter = some (ceilDiv (w * 1000) 1000)
    ∧ (rlCheck { windowMs := w * 1000, maxRequests := limit, blockDurationMs := 0 }
        t (some (winEntry { windowMs := w * 1000, maxRequests := limit, blockDurationMs := 0 }
          t0 limit)) false).entry.map RLEntry.isBlocked = some true := by
  have h1 : ¬ (t0 + w * 1000 < t) := Nat.not_lt.mpr ht
  refine ⟨?_, ?_, rfl, rfl, ?_, ?_, ?_, ?_⟩
  · simp [checkApiKeyRateLimit, hlim]
  · simp [checkApiKeyRateLimit]
  · simp [checkApiKeyRateLimit]
    omega
  · have hreset : now - w * 1000 + w * 1000 = now := Nat.sub_add_cancel hw
    simp [checkApiKeyRateLimit, hused, hreset, ceilDiv]
  · simp [rlCheck, winEntry, h1, blockLen]
  · simp [rlCheck, winEntry, h1, blockLen]

theorem C9_apikey_limiter_divergence_amended_witness :
    (checkApiKeyRateLimit [] 1000000 1 60 false).status.allowed = true
    ∧ (checkApiKeyRateLimit [] 1000000 1 60 false).status.remainingRequests = (1 : Int)
    ∧ (rlCheck { windowMs := 60 * 1000, maxRequests := 1, blockDurationMs := 0 }
        1000000 none false).result.allowed = true
    ∧ (rlCheck { windowMs := 60 * 1000, maxRequests := 1, blockDurationMs := 0 }
        1000000 none false).result.remaining = (1 : Int) - 1
    ∧ (checkApiKeyRateLimit [999000] 1000000 1 60 false).status.allowed = false
    ∧ (checkApiKeyRateLimit [999000] 1000000 1 60 false).status.retryAfter = some 0
    ∧ (rlCheck { windowMs := 60 * 1000, maxRequests := 1, blockDurationMs := 0 }
        1000500 (some (winEntry { windowMs := 60 * 1000, maxRequests := 1, blockDurationMs := 0 }
          1000000 1)) false).result.retryAfter = some (ceilDiv (60 * 1000) 1000)
    ∧ (rlCheck { windowMs := 60 * 1000, maxRequests := 1, blockDurationMs := 0 }
        1000500 (some (winEntry { windowMs := 60 * 1000, maxRequests := 1, blockDurationMs := 0 }
          1000000 1)) false).entry.map RLEntry.isBlocked = some true :=
  C9_apikey_limiter_divergence_amended 1 60 1000000 1000000 1000500 [999000]
    (by decide) (by decide) (by decide) (by decide)

/-! ## RBAC permission resolver (src/lib/permissions.ts) and the
`withRbac` middleware -/

structure PermissionRow where
  id : String
  name : String
  resource : String
  action : String
deriving DecidableEq, Repr

structure RoleRow where
  id : String
  name : String
  description : String
  systemRole : Bool
deriving DecidableEq, Repr

structure RbacDb where
  roles : List RoleRow
  permissions : List PermissionRow
  rolePermissions : List (String × String)
  userRoles : List (String × String)
deriving DecidableEq, Repr

/-- Embedding of `getUserRoles`: the roles joined through `user_roles`
for the given user. -/
def getUserRoles (db : RbacDb) (userId : String) : List RoleRow :=
  db.roles.filter fun r => db.userRoles.any fun ur => ur.1 == userId && ur.2 == r.id

/-- Embedding of `isSuperAdmin`: some assigned role has the fixed id
`role-super-admin`. -/
def isSuperAdmin (db : RbacDb) (userId : String) : Bool :=
  (getUserRoles db userId).any fun r => r.id == "role-super-admin"

def isAdminCheck (db : RbacDb) (userId : String) : Bool :=
  (getUserRoles db userId).any fun r =>
    r.id == "role-super-admin" || r.id == "role-admin"

/-- Embedding of `hasPermission`: the three-way join
permissions/role_permissions/user_roles filtered by the permission
name. -/
def hasPermission (db : RbacDb) (userId permissionName : String) : Bool :=
  db.permissions.any fun p =>
    p.name == permissionName &&
      db.rolePermissions.any fun rp =>
        rp.2 == p.id && db.userRoles.any fun ur => ur.1 == userId && ur.2 == rp.1

/-- Embedding of `hasResourceAccess`: the same join filtered by
resource and action. -/
def hasResourceAccess (db : RbacDb) (userId resource action : String) : Bool :=
  db.permissions.any fun p =>
    p.resource == resource && p.action == action &&
      db.rolePermissions.any fun rp =>
        rp.2 == p.id && db.userRoles.any fun ur => ur.1 == userId && ur.2 == rp.1

/-- Embedding of `getUserPermissions`: permissions reachable through
any assigned role. -/
def getUserPermissions (db : RbacDb) (userId : String) : List PermissionRow :=
  db.permissions.filter fun p =>
    db.rolePermissions.any fun rp =>
      rp.2 == p.id && db.userRoles.any fun ur => ur.1 == userId && ur.2 == rp.1

/-- Embedding of `hasAnyPermission`: false on the empty list, else the
join with `p.name IN names`. -/
def hasAnyPermission (db : RbacDb) (userId : String) (names : List String) : Bool :=
  if names.isEmpty then false
  else db.permissions.any fun p =>
    names.contains p.name &&
      db.rolePermissions.any fun rp =>
        rp.2 == p.id && db.userRoles.any fun ur => ur.1 == userId && ur.2 == rp.1

/-- Embedding of `hasAllPermissions`: vacuously true on the empty list,
else every requested name appears among the user's permission names. -/
def hasAllPermissions (db : RbacDb) (userId : String) (names : List String) : Bool :=
  if names.isEmpty then true
  else names.all fun n => ((getUserPermissions db userId).map PermissionRow.name).contains n

structure RbacContext where
  userId : String
  email : String
  isSA : Bool
  isAdm : Bool
deriving DecidableEq, Repr

/-- Embedding of `getAuthContext`: verify the bearer token, require a
nonempty subject, and precompute the admin flags. -/
def getAuthContext (key now : Nat) (db : RbacDb) (tok : Option JWT) :
    Option RbacContext :=
  match tok with
  | none => none
  | some t =>
    match verifyJWT key now t with
    | none => none
    | some p =>
      if p.sub = "" then none
      else some { userId := p.sub, email := p.email,
                  isSA := isSuperAdmin db p.sub, isAdm := isAdminCheck db p.sub }

structure RbacOptions where
  permission : Option String
  resource : Option String
  action : Option String
  permissions : Option (List String)
  requireAll : Bool
deriving DecidableEq, Repr

inductive RbacDecision
  | unauthorized
  | forbidden
  | allowed
deriving DecidableEq, Repr

/-- Embedding of the `withRbac` middleware decision (the RBAC
middleware module, lines 174-263): unauthenticated requests are 401;
for super admins every permission check is skipped ("Skip permission
checks for super admin"); otherwise the configured point check,
resource+action check and any/all list check each turn a failure into
403, and the handler runs only if all pass. -/
def withRbacDecision (key now : Nat) (db : RbacDb) (tok : Option JWT)
    (opts : RbacOptions) : RbacDecision :=
  match getAuthContext key now db tok with
  | none => RbacDecision.unauthorized
  | some ctx =>
    if ctx.isSA then RbacDecision.allowed
    else if (match opts.permission with
             | some p => !(hasPermission db ctx.userId p)
             | none => false) then RbacDecision.forbidden
    else if (match opts.resource, opts.action with
             | some r, some a => !(hasResourceAccess db ctx.userId r a)
             | _, _ => false) then RbacDecision.forbidden
    else if (match opts.permissions with
             | some ps =>
               !ps.isEmpty &&
                 !(if opts.requireAll then hasAllPermissions db ctx.userId ps
                   else hasAnyPermission db ctx.userId ps)
             | none => false) then RbacDecision.forbidden
    else RbacDecision.allowed

/-- C6: a principal holding the super-admin role passes every
`withRbac` permission check — point permission, resource+action, and
any/all lists — by short-circuiting before any permission query: the
decision is `allowed` for every choice of the `permissions` and
`role_permissions` tables, so in particular for permissions created
after the role was assigned and never granted to any role.  This is
distinct from the role having been granted all permissions: the same
principal can fail a direct `hasPermission` query. -/
theorem C6_super_admin_bypass (key now : Nat) (db : RbacDb) (tok : JWT)
    (p : JWTPayload) (roleRow : RoleRow)
    (hv : verifyJWT key now tok = some p)
    (hsub : ¬ (p.sub = ""))
    (hrole : roleRow ∈ db.roles)
    (hrid : roleRow.id = "role-super-admin")
    (hassigned : (p.sub, "role-super-admin") ∈ db.userRoles) :
    (∀ ps : List PermissionRow, ∀ rps : List (String × String),
      ∀ opts : RbacOptions,
        withRbacDecision key now
          { roles := db.roles, permissions := ps, rolePermissions := rps,
            userRoles := db.userRoles } (some tok) opts = RbacDecision.allowed)
    ∧ ∃ db2 : RbacDb, ∃ permName : String,
        isSuperAdmin db2 p.sub = true ∧ hasPermission db2 p.sub permName = false ∧
        (∀ opts : RbacOptions,
          withRbacDecision key now db2 (some tok) opts = RbacDecision.allowed) := by
  have hsa : ∀ ps : List PermissionRow, ∀ rps : List (String × String),
      isSuperAdmin
        { roles := db.roles, permissions := ps, rolePermissions := rps,
          userRoles := db.userRoles } p.sub = true := by
    intro ps rps
    rw [isSuperAdmin, List.any_eq_true]
    refine ⟨roleRow, ?_, by simp [hrid]⟩
    rw [getUserRoles, List.mem_filter]
    refine ⟨hrole, ?_⟩
    rw [List.any_eq_true]
    exact ⟨(p.sub, "role-super-admin"), hassigned, by simp [hrid]⟩
  have hdec : ∀ ps : List PermissionRow, ∀ rps : List (String × String),
      ∀ opts : RbacOptions,
        withRbacDecision key now
          { roles := db.roles, permissions := ps, rolePermissions := rps,
            userRoles := db.userRoles } (some tok) opts = RbacDecision.allowed := by
    intro ps rps opts
    rw [withRbacDecision, getAuthContext]
    rw [hv]
    simp [hsub, hsa ps rps]
  refine ⟨hdec, ?_⟩
  refine ⟨{ roles := db.roles, permissions := [], rolePermissions := [],
            userRoles := db.userRoles }, "perm-added-later", ?_, ?_, hdec [] []⟩
  · exact hsa [] []
  · rfl

theorem C6_super_admin_bypass_witness :
    (∀ ps : List PermissionRow, ∀ rps : List (String × String),
      ∀ opts : RbacOptions,
        withRbacDecision 7 100
          { roles := [{ id := "role-super-admin", name := "Super Admin",
                        description := "", systemRole := true }],
            permissions := ps, rolePermissions := rps,
            userRoles := [("admin1", "role-super-admin")] }
          (some (createAccessToken 7 100 "admin1" "adm@x.com" none 15)) opts
          = RbacDecision.allowed)
    ∧ ∃ db2 : RbacDb, ∃ permName : String,
        isSuperAdmin db2 (createAccessToken 7 100 "admin1" "adm@x.com" none 15).payload.sub = true
        ∧ hasPermission db2 (createAccessToken 7 100 "admin1" "adm@x.com" none 15).payload.sub permName = false
        ∧ (∀ opts : RbacOptions,
            withRbacDecision 7 100 db2
              (some (createAccessToken 7 100 "admin1" "adm@x.com" none 15)) opts
              = RbacDecision.allowed) :=
  C6_super_admin_bypass 7 100
    { roles := [{ id := "role-super-admin", name := "Super Admin",
                  description := "", systemRole := true }],
      permissions := [], rolePermissions := [],
      userRoles := [("admin1", "role-super-admin")] }
    (createAccessToken 7 100 "admin1" "adm@x.com" none 15)
    (createAccessToken 7 100 "admin1" "adm@x.com" none 15).payload
    { id := "role-super-admin", name := "Super Admin",
      description := "", systemRole := true }
    (by decide) (by decide) (by decide) (by decide) (by decide)

/-! ## Role mutation (src/lib/permissions.ts lines 304-487) -/

/-- Embedding of `updateRole`: `UPDATE roles SET name = ?, description
= ? WHERE id = ? AND system_role = 0`, then re-select the row by id and
return it (or null when no such row exists). -/
def updateRoleOp (db : RbacDb) (roleId newName newDesc : String) :
    Option RoleRow × RbacDb :=
  let roles2 := db.roles.map fun r =>
    if r.id == roleId && !r.systemRole
    then { r with name := newName, description := newDesc } else r
  let db2 : RbacDb := { db with roles := roles2 }
  (roles2.find? fun r => r.id == roleId, db2)

/-- Embedding of `deleteRole`: select the role, throw (caught, returns
false) when it is a system role, else `DELETE ... WHERE id = ? AND
system_role = 0` and report whether a row was removed. -/
def deleteRoleOp (db : RbacDb) (roleId : String) : Bool × RbacDb :=
  match db.roles.find? fun r => r.id == roleId with
  | some r =>
    if r.systemRole then (false, db)
    else
      let roles2 := db.roles.filter fun q => !(q.id == roleId && !q.systemRole)
      (decide (roles2.length < db.roles.length), { db with roles := roles2 })
  | none =>
    let roles2 := db.roles.filter fun q => !(q.id == roleId && !q.systemRole)
    (decide (roles2.length < db.roles.length), { db with roles := roles2 })

/-- Embedding of `updateRolePermissions`: delete all `role_permissions`
rows of the role, insert one row per given permission id, and return
true.  The source has no system-role guard here. -/
def updateRolePermissionsOp (db : RbacDb) (roleId : String)
    (permissionIds : List String) : Bool × RbacDb :=
  let kept := db.rolePermissions.filter fun rp => !(rp.1 == roleId)
  let added := permissionIds.map fun pid => (roleId, pid)
  (true, { db with rolePermissions := kept ++ added })

theorem map_pointwise_id {α : Type} (l : List α) (f : α → α)
    (h : ∀ x ∈ l, f x = x) : l.map f = l := by
  induction l with
  | nil => rfl
  | cons x xs ih =>
    rw [List.map_cons, h x (List.mem_cons_self x xs),
      ih fun y hy => h y (List.mem_cons_of_mem x hy)]

/-- C8: the claim requires all three mutations to leave a system role
untouched and report rejection, but `updateRolePermissions` has no
system-role guard: on a store holding the system role `role-admin`
with permission set `{pA}`, replacing the set with `{pB}` succeeds
(returns true) and changes the stored permission set. -/
theorem C8_counterexample :
    (updateRolePermissionsOp
      { roles := [{ id := "role-admin", name := "Administrator",
                    description := "", systemRole := true }],
        permissions := [{ id := "pA", name := "users.read",
                          resource := "users", action := "read" },
                        { id := "pB", name := "users.delete",
                          resource := "users", action := "delete" }],
        rolePermissions := [("role-admin", "pA")],
        userRoles := [] }
      "role-admin" ["pB"]).1 = true
    ∧ (updateRolePermissionsOp
      { roles := [{ id := "role-admin", name := "Administrator",
                    description := "", systemRole := true }],
        permissions := [{ id := "pA", name := "users.read",
                          resource := "users", action := "read" },
                        { id := "pB", name := "users.delete",
                          resource := "users", action := "delete" }],
        rolePermissions := [("role-admin", "pA")],
        userRoles := [] }
      "role-admin" ["pB"]).2.rolePermissions = [("role-admin", "pB")]
    ∧ [(("role-admin" : String), ("pB" : String))] ≠ [("role-admin", "pA")] := by
  refine ⟨rfl, rfl, ?_⟩
  decide

/-- C8 (amended): for a stored system role, `deleteRole` rejects the
mutation (returns false, store unchanged) and `updateRole` leaves the
roles table unchanged but reports the unchanged row rather than a
rejection; `updateRolePermissions` is not guarded at all: it replaces
the role's permission set with exactly the given ids and reports
success. -/
theorem C8_system_role_mutations_amended (db : RbacDb) (roleId : String)
    (r : RoleRow) (newName newDesc : String) (permissionIds : List String)
    (hfind : (db.roles.find? fun q => q.id == roleId) = some r)
    (hsys : r.systemRole = true)
    (hallsys : ∀ q ∈ db.roles, q.id = roleId → q.systemRole = true) :
    deleteRoleOp db roleId = (false, db)
    ∧ (updateRoleOp db roleId newName newDesc).2 = db
    ∧ (updateRoleOp db roleId newName newDesc).1 = some r
    ∧ (updateRolePermissionsOp db roleId permissionIds).1 = true
    ∧ (∀ pid : String,
        (roleId, pid) ∈ (updateRolePermissionsOp db roleId permissionIds).2.rolePermissions
          ↔ pid ∈ permissionIds) := by
  have hmap : (db.roles.map fun q =>
      if q.id == roleId && !q.systemRole
      then { q with name := newName, description := newDesc } else q) = db.roles := by
    apply map_pointwise_id
    intro q hq
    by_cases hid : q.id = roleId
    · rw [hallsys q hq hid]
      simp
    · have : (q.id == roleId) = false := beq_eq_false_iff_ne.mpr hid
      simp [this]
  refine ⟨?_, ?_, ?_, rfl, ?_⟩
  · rw [deleteRoleOp, hfind]
    simp [hsys]
  · show ({ db with roles := _ } : RbacDb) = db
    rw [hmap]
  · show (db.roles.map _).find? _ = some r
    rw [hmap, hfind]
  · intro pid
    rw [updateRolePermissionsOp]
    constructor
    · intro hmem
      rcases List.mem_append.mp hmem with hm | hm
      · rcases List.mem_filter.mp hm with ⟨_, hne⟩
        simp at hne
      · rcases List.mem_map.mp hm with ⟨q, hqmem, hq⟩
        have : q = pid := congrArg Prod.snd hq
        rw [← this]
        exact hqmem
    · intro hmem
      apply List.mem_append.mpr
      right
      exact List.mem_map.mpr ⟨pid, hmem, rfl⟩

theorem C8_system_role_mutations_amended_witness :
    deleteRoleOp
      { roles := [{ id := "role-admin", name := "Administrator",
                    description := "", systemRole := true }],
        permissions := [], rolePermissions := [("role-admin", "pA")],
        userRoles := [] } "role-admin"
      = (false,
        { roles := [{ id := "role-admin", name := "Administrator",
                      description := "", systemRole := true }],
          permissions := [], rolePermissions := [("role-admin", "pA")],
          userRoles := [] })
    ∧ (updateRoleOp
        { roles := [{ id := "role-admin", name := "Administrator",
                      description := "", systemRole := true }],
          permissions := [], rolePermissions := [("role-admin", "pA")],
          userRoles := [] } "role-admin" "Renamed" "changed").2
      = { roles := [{ id := "role-admin", name := "Administrator",
                      description := "", systemRole := true }],
          permissions := [], rolePermissions := [("role-admin", "pA")],
          userRoles := [] }
    ∧ (updateRoleOp
        { roles := [{ id := "role-admin", name := "Administrator",
                      description := "", systemRole := true }],
          permissions := [], rolePermissions := [("role-admin", "pA")],
          userRoles := [] } "role-admin" "Renamed" "changed").1
      = some { id := "role-admin", name := "Administrator",
               description := "", systemRole := true }
    ∧ (updateRolePermissionsOp
        { roles := [{ id := "role-admin", name := "Administrator",
                      description := "", systemRole := true }],
          permissions := [], rolePermissions := [("role-admin", "pA")],
          userRoles := [] } "role-admin" ["pB"]).1 = true
    ∧ (∀ pid : String,
        (("role-admin" : String), pid) ∈ (updateRolePermissionsOp
          { roles := [{ id := "role-admin", name := "Administrator",
                        description := "", systemRole := true }],
            permissions := [], rolePermissions := [("role-admin", "pA")],
            userRoles := [] } "role-admin" ["pB"]).2.rolePermissions
          ↔ pid ∈ ["pB"]) :=
  C8_system_role_mutations_amended
    { roles := [{ id := "role-admin", name := "Administrator",
                  description := "", systemRole := true }],
      permissions := [], rolePermissions := [("role-admin", "pA")],
      userRoles := [] }
    "role-admin"
    { id := "role-admin", name := "Administrator",
      description := "", systemRole := true }
    "Renamed" "changed" ["pB"]
    (by decide) rfl (by decide)

/-! ## OAuth callback (app/api/auth/callback/[provider]/route.ts) and
login provider lock-in (the POST /api/auth/login route) -/

/-- ASCII lowercasing mirroring `provider.toLowerCase()` in the route
(structural recursion on the character list). -/
def lowerChar (c : Char) : Char :=
  if c.isUpper then Char.ofNat (c.toNat + 32) else c

def lowerString (s : String) : String :=
  String.mk (s.toList.map lowerChar)

structure UserInfo where
  sub : String
  email : Option String
  displayName : Option String
  picture : Option String
deriving DecidableEq, Repr

inductive CallbackResult
  | errRedirect (code : String)
  | dashboard (userId : String) (access refresh : JWT)
deriving DecidableEq, Repr

/-- Embedding of `getOAuthConfig` for the callback: only the built-in
google/github providers have a configuration. -/
def oauthConfigFor (provider : String) : Option AuthProvider :=
  if provider = "google" then some AuthProvider.google
  else if provider = "github" then some AuthProvider.github
  else none

/-- The email the callback uses: the provider email when present and
nonempty, else the synthesized `provider_sub@elixpo.local` fallback. -/
def callbackEmail (provider : String) (ui : UserInfo) : String :=
  match ui.email with
  | some e =>
    if e = "" then lowerString provider ++ "_" ++ ui.sub ++ "@elixpo.local" else e
  | none => lowerString provider ++ "_" ++ ui.sub ++ "@elixpo.local"

/-- Embedding of `GET /api/auth/callback/[provider]`: provider error
and parameter/state validation, then code exchange and user-info fetch
(both modelled as already-resolved inputs), then — with the store
upsert commented out in the source ("For now, using mock D1") — the
route mints a fresh `generateUUID()` principal id (`freshUserId`),
issues tokens for it and redirects to the dashboard.  No credential
store is consulted at any point, so the outcome cannot depend on
previously registered identities. -/
def callbackGET (key now : Nat) (freshUserId : String) (provider : String)
    (code state errParam storedState : Option String)
    ( _pkceVerifier : Option String) (exchangeToken : Option String)
    (userInfo : Option UserInfo) : CallbackResult :=
  match errParam with
  | some e => CallbackResult.errRedirect e
  | none =>
    match code, state with
    | some _, some s =>
      match storedState with
      | none => CallbackResult.errRedirect "invalid_state"
      | some st =>
        if st ≠ s then CallbackResult.errRedirect "invalid_state"
        else
          match oauthConfigFor (lowerString provider) with
          | none => CallbackResult.errRedirect "unsupported_provider"
          | some prov =>
            match exchangeToken with
            | none => CallbackResult.errRedirect "token_exchange_failed"
            | some _ =>
              match userInfo with
              | none => CallbackResult.errRedirect "user_info_failed"
              | some ui =>
                if ui.sub = "" then CallbackResult.errRedirect "user_info_failed"
                else
                  CallbackResult.dashboard freshUserId
                    (createAccessToken key now freshUserId
                      (callbackEmail provider ui) (some prov) 15)
                    (createRefreshToken key now freshUserId (some prov) 30)
    | _, _ => CallbackResult.errRedirect "invalid_request"

structure UserRow where
  id : String
  email : String
  isActive : Bool
deriving DecidableEq, Repr

structure IdentityRow where
  userId : String
  provider : String
deriving DecidableEq, Repr

/-- Embedding of `getUserByEmail` (src/lib/db.ts): `WHERE email = ?
AND is_active = 1`. -/
def getUserByEmail (users : List UserRow) (emailAddr : String) : Option UserRow :=
  users.find? fun u => u.email == emailAddr && u.isActive

def getIdentitiesByUserId (idents : List IdentityRow) (uid : String) :
    List IdentityRow :=
  idents.filter fun i => i.userId == uid

inductive LoginResult
  | rateLimited
  | badRequest (msg : String)
  | providerLockin (registeredProviders : List String)
  | loggedIn (userId : String) (access refresh : JWT)
deriving DecidableEq, Repr

def providerTag (prov : String) : Option AuthProvider :=
  if prov = "email" then some AuthProvider.email
  else if prov = "google" then some AuthProvider.google
  else if prov = "github" then some AuthProvider.github
  else none

/-- Embedding of `POST /api/auth/login` after the rate-limit gate
(whose outcome is the `rateLimitAllowed` input): validates email and
provider, runs the provider lock-in check (skipped when the store
raises) rejecting with 403 and the list of registered providers when
the account was registered under other providers, then requires the
per-provider credential (password or oauth_code) and issues tokens for
the existing user id or a fresh one. -/
def loginPOST (key now : Nat) (freshUserId : String)
    (users : List UserRow) (idents : List IdentityRow)
    (emailAddr : Option String) (password : Option String)
    (provider : Option String) (oauthCode : Option String)
    (rateLimitAllowed : Bool) (lockinCheckRaises : Bool) : LoginResult :=
  if !rateLimitAllowed then LoginResult.rateLimited
  else
    match emailAddr, provider with
    | some em, some prov =>
      let existing := if lockinCheckRaises then none else getUserByEmail users em
      let lock : Option (List String) :=
        match existing with
        | none => none
        | some u =>
          let ps := (getIdentitiesByUserId idents u.id).map IdentityRow.provider
          if !ps.isEmpty && !(ps.contains prov) then some ps else none
      match lock with
      | some ps => LoginResult.providerLockin ps
      | none =>
        let uid := match existing with
          | some u => u.id
          | none => freshUserId
        match providerTag prov with
        | none => LoginResult.badRequest "unsupported provider"
        | some tag =>
          if prov = "email" && password.isNone then
            LoginResult.badRequest "password is required for email provider"
          else if (prov = "google" || prov = "github") && oauthCode.isNone then
            LoginResult.badRequest "oauth_code is required"
          else
            LoginResult.loggedIn uid
              (createAccessToken key now uid em (some tag) 15)
              (createRefreshToken key now uid (some tag) 30)
    | _, _ => LoginResult.badRequest "email and provider are required"

/-- C5: the claim requires a completed OAuth login via provider B with
an email registered under provider A to be rejected with a provider
lock-in error.  The callback route consults no store at all (its
upserts are commented out) and issues tokens under a freshly generated
principal id: this concrete github callback succeeds with the
dashboard redirect and new tokens, for any state the credential store
may be in, instead of rejecting. -/
theorem C5_counterexample :
    callbackGET 7 100 "fresh-1" "github" (some "c") (some "s") none (some "s")
      (some "v") (some "ptk")
      (some { sub := "g123", email := some "a@x.com",
              displayName := none, picture := none })
      = CallbackResult.dashboard "fresh-1"
          (createAccessToken 7 100 "fresh-1" "a@x.com" (some AuthProvider.github) 15)
          (createRefreshToken 7 100 "fresh-1" (some AuthProvider.github) 30) := by
  decide

/-- C5 (amended): the OAuth callback performs no provider lock-in check
— every happy-path callback issues tokens under the freshly generated
principal id, whatever identities are registered — while the provider
lock-in rejection that names the registered provider(s) is implemented
in `POST /api/auth/login`: when the account for the presented email was
registered under providers not including the presented one, login is
rejected with the full list of registered providers and no tokens are
issued. -/
theorem C5_provider_lockin_amended (key now : Nat) (freshUserId provider : String)
    (c s pkce tok : String) (ui : UserInfo) (prov : AuthProvider)
    (users : List UserRow) (idents : List IdentityRow)
    (em pw : Option String) (provName : String) (oc : Option String) (u : UserRow)
    (hconf : oauthConfigFor (lowerString provider) = some prov)
    (hsub : ¬ (ui.sub = ""))
    (hemail : em = some (u.email))
    (hfound : getUserByEmail users u.email = some u)
    (hne : ((getIdentitiesByUserId idents u.id).map IdentityRow.provider).isEmpty = false)
    (hnotin : ((getIdentitiesByUserId idents u.id).map IdentityRow.provider).contains provName = false) :
    callbackGET key now freshUserId provider (some c) (some s) none (some s)
        (some pkce) (some tok) (some ui)
      = CallbackResult.dashboard freshUserId
          (createAccessToken key now freshUserId (callbackEmail provider ui) (some prov) 15)
          (createRefreshToken key now freshUserId (some prov) 30)
    ∧ loginPOST key now freshUserId users idents em pw (some provName) oc true false
      = LoginResult.providerLockin
          ((getIdentitiesByUserId idents u.id).map IdentityRow.provider) := by
  constructor
  · rw [callbackGET]
    simp only [ne_eq, not_true_eq_false, if_false, hconf, hsub, ite_false]
  · subst hemail
    rw [loginPOST]
    have hforall : ∀ x ∈ getIdentitiesByUserId idents u.id, ¬ x.provider = provName := by
      simpa using hnotin
    simp [hfound, hne]
    rw [if_pos hforall]

theorem C5_provider_lockin_amended_witness :
    callbackGET 7 100 "fresh-1" "github" (some "c") (some "s") none (some "s")
        (some "v") (some "ptk")
        (some { sub := "g123", email := some "b@x.com",
                displayName := none, picture := none })
      = CallbackResult.dashboard "fresh-1"
          (createAccessToken 7 100 "fresh-1"
            (callbackEmail "github"
              { sub := "g123", email := some "b@x.com",
                displayName := none, picture := none })
            (some AuthProvider.github) 15)
          (createRefreshToken 7 100 "fresh-1" (some AuthProvider.github) 30)
    ∧ loginPOST 7 100 "fresh-1"
        [{ id := "u9", email := "b@x.com", isActive := true }]
        [{ userId := "u9", provider := "google" }]
        (some "b@x.com") none (some "github") (some "code") true false
      = LoginResult.providerLockin
          ((getIdentitiesByUserId [{ userId := "u9", provider := "google" }] "u9").map
            IdentityRow.provider) :=
  C5_provider_lockin_amended 7 100 "fresh-1" "github" "c" "s" "v" "ptk"
    { sub := "g123", email := some "b@x.com", displayName := none, picture := none }
    AuthProvider.github
    [{ id := "u9", email := "b@x.com", isActive := true }]
    [{ userId := "u9", provider := "google" }]
    (some "b@x.com") none "github" (some "code")
    { id := "u9", email := "b@x.com", isActive := true }
    (by decide) (by decide) rfl (by decide) (by decide) (by decide)
